import Mathlib

/-!
# Airgead Banking investment calculator (`CS-210 Project 2/Source.cpp`)

A shallow embedding of `CalculatorApp::calculateYearlyData` and of the table
rows written by `displayYearEndReport` and `displayMonthlyReportTable`.

Conventions of the embedding.

* A `double` is a value of a carrier type `α` with the operations the source
  uses (`+`, `*`, `/`, the literals `0.0`, `100.0`, `12.0`).  Results that do
  not depend on the laws of arithmetic are proved for every carrier; results
  "over exact arithmetic" take `α := ℚ`; what overflow does to a run is shown
  on the carrier `Double`, a model of IEEE-754 binary64.
* An `int` is an `Int`; the one multiplication that can leave the 32-bit range,
  `numberOfYears * 12`, is reduced with `wrapInt32`.
* A `vector<T>` is a `List T`; an output parameter is passed in and returned;
  the optional pointer `outMonthlyData` is an `Option` (`none` is `nullptr`).
* `cout << ...` is the text appended to the output; a `double` is written
  under `fixed << setprecision(2)` as the decimal text of the amount rounded to
  cents.
-/

namespace Airgead

/-! ## Data model -/

/-- Class `InvestmentData`: the input parameters of one projection. -/
structure InvestmentData (α : Type) where
  initialInvestmentAmount : α
  monthlyDepositAmount : α
  annualInterestRate : α
  numberOfYears : Int

/-- Struct `ReportData`: the detailed result of one simulated month. -/
structure ReportData (α : Type) where
  month : Int
  openingBalance : α
  depositedAmount : α
  total : α
  interestEarned : α
  closingBalance : α

/-- The three output parameters of `calculateYearlyData`. -/
structure Outputs (α : Type) where
  outYearEndBalances : List α
  outYearEndInterest : List α
  outMonthlyData : Option (List (ReportData α))

/-- The variables live in the `for` loop of `calculateYearlyData`. -/
structure LoopState (α : Type) where
  month : Int
  currentBalance : α
  yearTotalInterest : α
  outYearEndBalances : List α
  outYearEndInterest : List α
  outMonthlyData : Option (List (ReportData α))

/-! ## Machine integers and containers -/

/-- Two's-complement reduction of an integer to the 32-bit `int` range. -/
def wrapInt32 (x : Int) : Int :=
  (x + 2147483648) % 4294967296 - 2147483648

/-- Largest value of a 32-bit `int`. -/
def INT_MAX : Int := 2147483647

/-- The call `v.clear()` on a vector. -/
def clear {β : Type} (_v : List β) : List β := []

/-- The call `v.push_back(x)` on a vector. -/
def push_back {β : Type} (v : List β) (x : β) : List β := v ++ [x]

/-! ## `CalculatorApp::calculateYearlyData` -/

section Engine

variable {α : Type} [Zero α] [Add α] [Mul α] [Div α] [NatCast α]

/-- The expression `(annualInterestRate / 100.0) / 12.0`. -/
def monthlyInterestRate (annualInterestRate : α) : α :=
  (annualInterestRate / ((100 : ℕ) : α)) / ((12 : ℕ) : α)

/-- One pass through the body of the `for` loop, the increment `++month`
included.  The increment cannot overflow: the body only runs when
`month <= numberOfMonths`, and `numberOfMonths` is an `int`. -/
def loopBody (monthlyDeposit rate : α) (s : LoopState α) : LoopState α :=
  let openingBalance := s.currentBalance
  let depositedAmount := monthlyDeposit
  let total := openingBalance + depositedAmount
  let interestEarned := total * rate
  let closingBalance := total + interestEarned
  let currentBalance := closingBalance
  let yearTotalInterest := s.yearTotalInterest + interestEarned
  let currentMonthData : ReportData α :=
    { month := s.month, openingBalance := openingBalance, depositedAmount := depositedAmount,
      total := total, interestEarned := interestEarned, closingBalance := closingBalance }
  let outMonthlyData := s.outMonthlyData.map (fun v => push_back v currentMonthData)
  if s.month.tmod 12 = 0 then
    { month := s.month + 1
      currentBalance := currentBalance
      yearTotalInterest := 0
      outYearEndBalances := push_back s.outYearEndBalances currentBalance
      outYearEndInterest := push_back s.outYearEndInterest yearTotalInterest
      outMonthlyData := outMonthlyData }
  else
    { month := s.month + 1
      currentBalance := currentBalance
      yearTotalInterest := yearTotalInterest
      outYearEndBalances := s.outYearEndBalances
      outYearEndInterest := s.outYearEndInterest
      outMonthlyData := outMonthlyData }

/-- The loop `for (...; month <= numberOfMonths; ++month)`, run for at most
`fuel` passes. -/
def forLoop (monthlyDeposit rate : α) (numberOfMonths : Int) :
    Nat → LoopState α → LoopState α
  | 0, s => s
  | fuel + 1, s =>
    if s.month ≤ numberOfMonths then
      forLoop monthlyDeposit rate numberOfMonths fuel (loopBody monthlyDeposit rate s)
    else s

/-- The state on entry to the `for` loop: `month = 1`, the balance is the
initial investment, the interest accumulator is `0.0`, the output vectors have
been cleared (the monthly one only when the pointer is not null). -/
def initialState (m_investmentData : InvestmentData α)
    (outYearEndBalances outYearEndInterest : List α)
    (outMonthlyData : Option (List (ReportData α))) : LoopState α :=
  { month := 1
    currentBalance := m_investmentData.initialInvestmentAmount
    yearTotalInterest := 0
    outYearEndBalances := clear outYearEndBalances
    outYearEndInterest := clear outYearEndInterest
    outMonthlyData := outMonthlyData.map clear }

/-- The value of `int numberOfMonths = numberOfYears * 12`. -/
def numberOfMonths (m_investmentData : InvestmentData α) : Int :=
  wrapInt32 (m_investmentData.numberOfYears * 12)

/-- Method `CalculatorApp::calculateYearlyData`.  The member `m_investmentData`
and the previous contents of the output parameters are arguments; the result
is the contents of the output parameters on return.  The loop gets
`numberOfMonths` passes of fuel, which `forLoop_exits` shows is enough. -/
def calculateYearlyData (m_investmentData : InvestmentData α) (monthlyDeposit : α)
    (outYearEndBalances outYearEndInterest : List α)
    (outMonthlyData : Option (List (ReportData α))) : Outputs α :=
  let rate := monthlyInterestRate m_investmentData.annualInterestRate
  let n := numberOfMonths m_investmentData
  let s := forLoop monthlyDeposit rate n n.toNat
    (initialState m_investmentData outYearEndBalances outYearEndInterest outMonthlyData)
  { outYearEndBalances := s.outYearEndBalances
    outYearEndInterest := s.outYearEndInterest
    outMonthlyData := s.outMonthlyData }

end Engine

/-! ## The trajectory of the loop in closed form

The functions of this section are not in the source: they name the values the
loop variables take after a given number of passes, and are related to
`forLoop` by `iterate_initialState`. -/

section Trace

variable {α : Type} [Zero α] [Add α] [Mul α] [Div α] [NatCast α]

/-- Value of `currentBalance` after `n` passes of the loop. -/
def balanceAfter (initial monthlyDeposit rate : α) : Nat → α
  | 0 => initial
  | n + 1 =>
    (balanceAfter initial monthlyDeposit rate n + monthlyDeposit) +
      (balanceAfter initial monthlyDeposit rate n + monthlyDeposit) * rate

/-- Interest earned in the pass with 0-based index `i`. -/
def interestAt (initial monthlyDeposit rate : α) (i : Nat) : α :=
  (balanceAfter initial monthlyDeposit rate i + monthlyDeposit) * rate

/-- The record built in the pass with 0-based index `i`. -/
def entryAt (initial monthlyDeposit rate : α) (i : Nat) : ReportData α :=
  { month := (i : Int) + 1
    openingBalance := balanceAfter initial monthlyDeposit rate i
    depositedAmount := monthlyDeposit
    total := balanceAfter initial monthlyDeposit rate i + monthlyDeposit
    interestEarned := interestAt initial monthlyDeposit rate i
    closingBalance := balanceAfter initial monthlyDeposit rate (i + 1) }

/-- Value of `yearTotalInterest` after `k` passes of the loop. -/
def accInterest (initial monthlyDeposit rate : α) : Nat → α
  | 0 => 0
  | k + 1 =>
    if (k + 1) % 12 = 0 then 0
    else accInterest initial monthlyDeposit rate k + interestAt initial monthlyDeposit rate k

/-- Value pushed onto `outYearEndInterest` at the end of year `j` (0-based). -/
def yearInterest (initial monthlyDeposit rate : α) (j : Nat) : α :=
  accInterest initial monthlyDeposit rate (12 * j + 11) +
    interestAt initial monthlyDeposit rate (12 * j + 11)

/-- The loop state after `k` passes from `initialState`. -/
def stateAfter (initial monthlyDeposit rate : α)
    (outMonthlyData : Option (List (ReportData α))) (k : Nat) : LoopState α :=
  { month := (k : Int) + 1
    currentBalance := balanceAfter initial monthlyDeposit rate k
    yearTotalInterest := accInterest initial monthlyDeposit rate k
    outYearEndBalances :=
      (List.range (k / 12)).map (fun j => balanceAfter initial monthlyDeposit rate (12 * j + 12))
    outYearEndInterest := (List.range (k / 12)).map (yearInterest initial monthlyDeposit rate)
    outMonthlyData :=
      outMonthlyData.map (fun _ => (List.range k).map (entryAt initial monthlyDeposit rate)) }

end Trace


/-! ## Text output

`cout` is modelled by the text it receives.  The stream state the rows depend
on is `fixed << setprecision(2)` (set before both row loops and in `main`),
the adjustment `left` / `right`, and the width of `setw`, which applies to the
next item only. -/

/-- Round to the nearest integer, ties to the even neighbour (the default
rounding of the floating-point environment).  No amount evaluated in this file
is a tie, and the results on currency symbols hold for any rounding. -/
def roundHalfEven (x : ℚ) : Int :=
  let f := ⌊x⌋
  let r := x - f
  if r < 1 / 2 then f
  else if 1 / 2 < r then f + 1
  else if f % 2 = 0 then f else f + 1

/-- The text `cout << fixed << setprecision(2) << amount` writes for a finite
`double`: an optional minus sign, the integer digits, a point and two decimals.
Outside this function are the values a rational does not carry: an infinity or
a NaN, written without decimals, and the negative zero, written `-0.00`. -/
def fixedPrecision2 (amount : ℚ) : String :=
  let cents := (roundHalfEven (|amount| * 100)).toNat
  (if amount < 0 then "-" else "") ++ Nat.repr (cents / 100) ++ "." ++
    Nat.repr (cents % 100 / 10) ++ Nat.repr (cents % 10)

/-- The item `s` written after `setw(width) << right`. -/
def setwRight (width : Nat) (s : String) : String :=
  String.mk (List.replicate (width - s.length) ' ') ++ s

/-- The item `s` written after `setw(width) << left`. -/
def setwLeft (width : Nat) (s : String) : String :=
  s ++ String.mk (List.replicate (width - s.length) ' ')

/-- The text of `string(n, c)`. -/
def stringOf (n : Nat) (c : Char) : String := String.mk (List.replicate n c)

/-- The text of `endl`. -/
def endl : String := "\n"

/-- Method `CalculatorApp::printDollarAmount`: the width of `setw` is consumed
by the item `"$"`, and the amount follows it unpadded. -/
def printDollarAmount (amount : ℚ) (width : Nat) : String :=
  setwRight width "$" ++ fixedPrecision2 amount

/-- One pass of the row loop of `displayYearEndReport`. -/
def yearEndReportRow (i : Nat) (balances interests : List ℚ) : String :=
  let YEAR_W := 0
  let BALANCE_W := 50
  let INTEREST_W := 50
  setwLeft YEAR_W (Nat.repr i) ++
    printDollarAmount (balances.getD i 0) BALANCE_W ++
    printDollarAmount (interests.getD i 0) INTEREST_W ++ endl

/-- Method `CalculatorApp::displayYearEndReport`. -/
def displayYearEndReport (reportTitle : String) (balances interests : List ℚ) : String :=
  let YEAR_W := 0
  let BALANCE_W := 50
  let INTEREST_W := 50
  endl ++
    stringOf 120 '=' ++ endl ++
    "*** " ++ reportTitle ++ "  ***" ++ endl ++
    stringOf 120 '=' ++ endl ++
    setwLeft YEAR_W "Year" ++
    setwRight BALANCE_W "Year End Balance" ++
    setwRight INTEREST_W "Year End Earned Interest" ++ endl ++
    stringOf 120 '-' ++ endl ++
    String.join ((List.range balances.length).map
      (fun i => yearEndReportRow i balances interests)) ++
    stringOf 120 '-' ++ endl

/-- One pass of the row loop of `displayMonthlyReportTable`.  The last column
is written by `cout << setw(CLOSE_W) << data.closingBalance`, not by
`printDollarAmount`. -/
def monthlyReportRow (data : ReportData ℚ) : String :=
  let MONTH_W := 8
  let OPEN_W := 25
  let DEPOSIT_W := 25
  let INTEREST_W := 20
  let CLOSE_W := 25
  setwLeft MONTH_W (toString data.month) ++
    printDollarAmount data.openingBalance OPEN_W ++
    printDollarAmount data.depositedAmount DEPOSIT_W ++
    printDollarAmount data.interestEarned INTEREST_W ++
    setwRight CLOSE_W (fixedPrecision2 data.closingBalance) ++ endl

/-- Method `CalculatorApp::displayMonthlyReportTable`: the text written before
the method waits for the enter key (the call `clearScreen()` writes nothing). -/
def displayMonthlyReportTable (monthlyData : List (ReportData ℚ)) : String :=
  let MONTH_W := 8
  let OPEN_W := 25
  let DEPOSIT_W := 25
  let INTEREST_W := 20
  let CLOSE_W := 25
  endl ++
    stringOf 120 '=' ++ endl ++
    "                                              *** DETAILED MONTHLY BREAKDOWN ***                                     " ++ endl ++
    stringOf 120 '=' ++ endl ++
    setwLeft MONTH_W "Month" ++
    setwRight OPEN_W "Opening Amount" ++
    setwRight DEPOSIT_W "Deposited Amount" ++
    setwRight INTEREST_W "Interest" ++
    setwRight CLOSE_W "Closing Balance" ++ endl ++
    stringOf 120 '-' ++ endl ++
    String.join (monthlyData.map monthlyReportRow) ++
    stringOf 120 '-' ++ endl ++
    "\nPress enter key to continue..." ++ endl

/-- The data members of class `CalculatorApp`. -/
structure CalculatorApp where
  m_investmentData : InvestmentData ℚ
  m_monthlyReport : List (ReportData ℚ)

/-- Method `CalculatorApp::displayAllYearEndReports`: the text written and the
object afterwards.  The local vectors `balances` and `interests` start empty;
the second call receives what the first left in them. -/
def displayAllYearEndReports (app : CalculatorApp) : String × CalculatorApp :=
  let first := calculateYearlyData app.m_investmentData 0 [] [] none
  let text1 := displayYearEndReport "Balance and Interest Without Additional Monthly Deposits"
    first.outYearEndBalances first.outYearEndInterest
  let second := calculateYearlyData app.m_investmentData
    app.m_investmentData.monthlyDepositAmount
    first.outYearEndBalances first.outYearEndInterest (some app.m_monthlyReport)
  let text2 := displayYearEndReport "Balance and Interest With Additional Monthly Deposits"
    second.outYearEndBalances second.outYearEndInterest
  (text1 ++ text2,
    { app with m_monthlyReport := second.outMonthlyData.getD app.m_monthlyReport })

/-- The monthly records an `Outputs` value holds (none when the pointer was null). -/
def Outputs.monthly {α : Type} (out : Outputs α) : List (ReportData α) :=
  out.outMonthlyData.getD []

/-- Number of `$` characters in a text. -/
def dollarCount (s : String) : Nat := s.toList.count '$'

/-! ## The arithmetic of `double`

A model of IEEE-754 binary64 with rounding to nearest, ties to even, which is
the arithmetic of `double` in the source.  A finite value is the rational it
denotes.  The sign of a zero is not represented: the comparisons do not
distinguish the two zeros, and the source never divides by a variable. -/

/-- A value of type `double`. -/
inductive Double where
  | finite (q : ℚ)
  | posInf
  | negInf
  | nan

/-- Rounding of an exact result to binary64: the result is a multiple of the
unit in the last place of its binade (of `2 ^ (-1074)` below `2 ^ (-1022)`),
and a magnitude that rounds to `2 ^ 1024` or more overflows to an infinity. -/
def roundBinary64 (q : ℚ) : Double :=
  if q = 0 then Double.finite 0
  else
    let e := max (Int.log 2 |q|) (-1022)
    let ulp : ℚ := 2 ^ (e - 52)
    let r : ℚ := roundHalfEven (q / ulp) * ulp
    if (2 : ℚ) ^ (1024 : Int) ≤ |r| then (if q < 0 then Double.negInf else Double.posInf)
    else Double.finite r

/-- Addition of `double`. -/
def Double.add : Double → Double → Double
  | Double.nan, _ => Double.nan
  | _, Double.nan => Double.nan
  | Double.finite a, Double.finite b => roundBinary64 (a + b)
  | Double.posInf, Double.negInf => Double.nan
  | Double.negInf, Double.posInf => Double.nan
  | Double.posInf, _ => Double.posInf
  | _, Double.posInf => Double.posInf
  | Double.negInf, _ => Double.negInf
  | _, Double.negInf => Double.negInf

/-- The product of an infinity (negative when `neg`) and the finite value `b`. -/
def Double.infTimes (neg : Bool) (b : ℚ) : Double :=
  if b = 0 then Double.nan
  else if decide (0 < b) = neg then Double.negInf else Double.posInf

/-- Multiplication of `double`; an infinity times zero is not a number. -/
def Double.mul : Double → Double → Double
  | Double.nan, _ => Double.nan
  | _, Double.nan => Double.nan
  | Double.finite a, Double.finite b => roundBinary64 (a * b)
  | Double.posInf, Double.finite b => Double.infTimes false b
  | Double.negInf, Double.finite b => Double.infTimes true b
  | Double.finite a, Double.posInf => Double.infTimes false a
  | Double.finite a, Double.negInf => Double.infTimes true a
  | Double.posInf, Double.posInf => Double.posInf
  | Double.negInf, Double.negInf => Double.posInf
  | Double.posInf, Double.negInf => Double.negInf
  | Double.negInf, Double.posInf => Double.negInf

/-- Division of `double`.  A zero divisor is taken as the positive zero. -/
def Double.div : Double → Double → Double
  | Double.nan, _ => Double.nan
  | _, Double.nan => Double.nan
  | Double.finite a, Double.finite b =>
    if b = 0 then
      (if a = 0 then Double.nan else if 0 < a then Double.posInf else Double.negInf)
    else roundBinary64 (a / b)
  | Double.finite _, _ => Double.finite 0
  | Double.posInf, Double.finite b => if 0 ≤ b then Double.posInf else Double.negInf
  | Double.negInf, Double.finite b => if 0 ≤ b then Double.negInf else Double.posInf
  | _, _ => Double.nan

/-- The comparison `x <= y` of `double` (`y >= x`): false when either side is
not a number. -/
def Double.le : Double → Double → Prop
  | Double.nan, _ => False
  | _, Double.nan => False
  | Double.finite a, Double.finite b => a ≤ b
  | Double.negInf, _ => True
  | _, Double.posInf => True
  | _, _ => False

instance : Zero Double := ⟨Double.finite 0⟩

instance : Add Double := ⟨Double.add⟩

instance : Mul Double := ⟨Double.mul⟩

instance : Div Double := ⟨Double.div⟩

instance : NatCast Double := ⟨fun n => roundBinary64 n⟩

instance : LE Double := ⟨Double.le⟩

/-- The `double` that `cin >> value` stores for the input text `1e308`. -/
@[irreducible]
def oneE308 : Double := roundBinary64 (10 ^ 308)

/-! ## The loop and its closed form -/

set_option linter.unusedSectionVars false

section Core

variable {α : Type} [Zero α] [Add α] [Mul α] [Div α] [NatCast α]

theorem loopBody_month (d r : α) (s : LoopState α) : (loopBody d r s).month = s.month + 1 := by
  unfold loopBody
  split <;> rfl

/-- While the fuel is exactly the number of passes left, `forLoop` is the
iteration of its body. -/
theorem forLoop_eq_iterate (d r : α) (n : Int) (fuel : Nat) (s : LoopState α)
    (h : s.month + fuel = n + 1) : forLoop d r n fuel s = (loopBody d r)^[fuel] s := by
  induction fuel generalizing s with
  | zero => rfl
  | succ f ih =>
    have hle : s.month ≤ n := by push_cast at h; omega
    rw [forLoop, if_pos hle, Function.iterate_succ_apply]
    apply ih
    rw [loopBody_month]
    push_cast at h
    omega

theorem iterate_loopBody_month (d r : α) (k : Nat) (s : LoopState α) :
    ((loopBody d r)^[k] s).month = s.month + k := by
  induction k with
  | zero => simp
  | succ k ih =>
    rw [Function.iterate_succ_apply', loopBody_month, ih]
    push_cast
    omega

theorem balanceAfter_succ (a d r : α) (n : Nat) :
    balanceAfter a d r (n + 1) = (balanceAfter a d r n + d) + (balanceAfter a d r n + d) * r :=
  rfl

theorem accInterest_succ (a d r : α) (k : Nat) :
    accInterest a d r (k + 1) =
      if (k + 1) % 12 = 0 then 0 else accInterest a d r k + interestAt a d r k :=
  rfl

/-- One pass of the body takes the closed form at `k` to the closed form at `k + 1`. -/
theorem stateAfter_succ (a d r : α) (o : Option (List (ReportData α))) (k : Nat) :
    loopBody d r (stateAfter a d r o k) = stateAfter a d r o (k + 1) := by
  have hmod : (((k : Int) + 1).tmod 12 = 0) ↔ (k + 1) % 12 = 0 := by
    rw [Int.tmod_eq_emod (by omega) (by omega)]
    omega
  by_cases h : (k + 1) % 12 = 0
  · have h2 : (k + 1) / 12 = k / 12 + 1 := by omega
    have e1 : 12 * (k / 12) + 11 = k := by omega
    have e2 : 12 * (k / 12) + 12 = k + 1 := by omega
    simp only [stateAfter, h2, List.range_succ, List.map_append, List.map_cons, List.map_nil,
      yearInterest, e1, e2]
    simp only [loopBody, if_pos (hmod.mpr h), push_back, accInterest_succ, if_pos h, interestAt,
      balanceAfter_succ, entryAt, Option.map_map]
    cases o <;> simp [Nat.cast_add, Function.comp_def]
  · have h1 : (k + 1) / 12 = k / 12 := by omega
    simp only [loopBody, stateAfter, if_neg (mt hmod.mp h), h1, List.range_succ, List.map_append,
      push_back, accInterest_succ, if_neg h, interestAt, balanceAfter_succ, entryAt,
      List.map_cons, List.map_nil, Option.map_map]
    cases o <;> simp [Nat.cast_add, Function.comp_def]

theorem iterate_initialState (inv : InvestmentData α) (d r : α) (b i : List α)
    (o : Option (List (ReportData α))) (k : Nat) :
    (loopBody d r)^[k] (initialState inv b i o) =
      stateAfter inv.initialInvestmentAmount d r o k := by
  induction k with
  | zero => cases o <;> simp [initialState, stateAfter, clear, balanceAfter, accInterest]
  | succ k ih => rw [Function.iterate_succ_apply', ih, stateAfter_succ]

/-- The loop of `calculateYearlyData` makes `numberOfMonths.toNat` passes. -/
theorem forLoop_initialState (inv : InvestmentData α) (d r : α) (b i : List α)
    (o : Option (List (ReportData α))) (n : Int) :
    forLoop d r n n.toNat (initialState inv b i o) =
      stateAfter inv.initialInvestmentAmount d r o n.toNat := by
  rw [← iterate_initialState inv d r b i o]
  by_cases hn : 0 ≤ n
  · apply forLoop_eq_iterate
    simp only [initialState]
    omega
  · have h0 : n.toNat = 0 := by omega
    rw [h0]
    rfl

/-- The fuel given to the loop is enough: on return the loop condition
`month <= numberOfMonths` is false. -/
theorem forLoop_exits (inv : InvestmentData α) (d r : α) (b i : List α)
    (o : Option (List (ReportData α))) (n : Int) :
    ¬ (forLoop d r n n.toNat (initialState inv b i o)).month ≤ n := by
  rw [forLoop_initialState]
  simp only [stateAfter]
  omega

/-- The outputs of `calculateYearlyData` in closed form. -/
theorem calculateYearlyData_eq (inv : InvestmentData α) (d : α) (b i : List α)
    (o : Option (List (ReportData α))) :
    calculateYearlyData inv d b i o =
      { outYearEndBalances := (List.range ((numberOfMonths inv).toNat / 12)).map
          (fun j => balanceAfter inv.initialInvestmentAmount d
            (monthlyInterestRate inv.annualInterestRate) (12 * j + 12))
        outYearEndInterest := (List.range ((numberOfMonths inv).toNat / 12)).map
          (yearInterest inv.initialInvestmentAmount d (monthlyInterestRate inv.annualInterestRate))
        outMonthlyData := o.map (fun _ => (List.range (numberOfMonths inv).toNat).map
          (entryAt inv.initialInvestmentAmount d (monthlyInterestRate inv.annualInterestRate))) } := by
  simp only [calculateYearlyData, forLoop_initialState, stateAfter]

theorem numberOfMonths_eq (inv : InvestmentData α) (h0 : 0 ≤ inv.numberOfYears)
    (hmax : inv.numberOfYears * 12 ≤ INT_MAX) : numberOfMonths inv = inv.numberOfYears * 12 := by
  simp only [numberOfMonths, wrapInt32, INT_MAX] at *
  omega

/-- The monthly records of a run that was given a vector for them. -/
theorem monthly_eq (inv : InvestmentData α) (d : α) (b i : List α) (old : List (ReportData α)) :
    (calculateYearlyData inv d b i (some old)).monthly =
      (List.range (numberOfMonths inv).toNat).map
        (entryAt inv.initialInvestmentAmount d (monthlyInterestRate inv.annualInterestRate)) := by
  simp [calculateYearlyData_eq, Outputs.monthly]

theorem monthly_none (inv : InvestmentData α) (d : α) (b i : List α) :
    (calculateYearlyData inv d b i none).monthly = [] := by
  simp [calculateYearlyData_eq, Outputs.monthly]

theorem monthly_getElem? (inv : InvestmentData α) (d : α) (b i : List α)
    (old : List (ReportData α)) (m : Nat) :
    (calculateYearlyData inv d b i (some old)).monthly[m]? =
      if m < (numberOfMonths inv).toNat then
        some (entryAt inv.initialInvestmentAmount d (monthlyInterestRate inv.annualInterestRate) m)
      else none := by
  rw [monthly_eq, List.getElem?_map]
  split
  · rename_i h
    rw [List.getElem?_range h]
    rfl
  · rename_i h
    rw [List.getElem?_eq_none (by simpa using h)]
    rfl

/-- The outputs do not depend on what the output vectors held before the call. -/
theorem calculateYearlyData_old_contents (inv : InvestmentData α) (d : α) (b i b' i' : List α)
    (old old' : List (ReportData α)) :
    calculateYearlyData inv d b i (some old) = calculateYearlyData inv d b' i' (some old') := by
  simp only [calculateYearlyData_eq, Option.map_some']

/-- The year-end outputs are the same with and without a monthly vector. -/
theorem calculateYearlyData_yearEnd_of_none (inv : InvestmentData α) (d : α) (b i : List α)
    (o : Option (List (ReportData α))) :
    (calculateYearlyData inv d b i none).outYearEndBalances =
        (calculateYearlyData inv d b i o).outYearEndBalances ∧
      (calculateYearlyData inv d b i none).outYearEndInterest =
        (calculateYearlyData inv d b i o).outYearEndInterest := by
  simp only [calculateYearlyData_eq, and_self]

/-- Whatever the year count, the outputs hold one monthly record per pass of the
loop and one year-end value per twelve passes. -/
theorem calculateYearlyData_lengths (inv : InvestmentData α) (d : α) (b i : List α)
    (old : List (ReportData α)) :
    (calculateYearlyData inv d b i (some old)).monthly.length = (numberOfMonths inv).toNat ∧
      (calculateYearlyData inv d b i (some old)).outYearEndBalances.length =
        (numberOfMonths inv).toNat / 12 ∧
      (calculateYearlyData inv d b i (some old)).outYearEndInterest.length =
        (numberOfMonths inv).toNat / 12 := by
  simp [calculateYearlyData_eq, Outputs.monthly]

end Core

/-! ## Year blocks -/

section Blocks

variable {α : Type} [Zero α] [Add α] [Mul α] [Div α] [NatCast α]

theorem drop_take_map_range {β : Type} (f : Nat → β) (n s len : Nat) (h : s + len ≤ n) :
    List.take len (List.drop s ((List.range n).map f)) = (List.range' s len).map f := by
  have hsplit : List.range n =
      List.range' 0 s ++ (List.range' s len ++ List.range' (s + len) (n - (s + len))) := by
    have h1 := List.range'_append_1 s len (n - (s + len))
    have h2 := List.range'_append_1 0 s (n - (s + len) + len)
    rw [Nat.zero_add] at h2
    rw [List.range_eq_range', h1, h2]
    congr 1
    omega
  rw [hsplit, List.map_append, List.map_append]
  rw [List.drop_left' (by simp), List.take_left' (by simp)]

/-- The accumulator is `0.0` at the start of every year block. -/
theorem accInterest_block_start (a d r : α) (k : Nat) : accInterest a d r (12 * k) = 0 := by
  cases k with
  | zero => rfl
  | succ k =>
    have e : 12 * (k + 1) = (12 * k + 11) + 1 := by omega
    rw [e, accInterest_succ, if_pos (by omega)]

/-- Inside a year block the accumulator is the left-to-right sum, started from
`0.0`, of the interest of the months of the block seen so far. -/
theorem accInterest_block (a d r : α) (k m : Nat) (hm : m ≤ 11) :
    accInterest a d r (12 * k + m) =
      List.foldl (· + ·) 0 ((List.range' (12 * k) m).map (interestAt a d r)) := by
  induction m with
  | zero => simpa using accInterest_block_start a d r k
  | succ m ih =>
    have e : 12 * k + (m + 1) = (12 * k + m) + 1 := by omega
    rw [e, accInterest_succ, if_neg (by omega), ih (by omega), List.range'_concat,
      List.map_append, List.foldl_append]
    simp

theorem yearInterest_eq (a d r : α) (k : Nat) :
    yearInterest a d r k =
      List.foldl (· + ·) 0 ((List.range' (12 * k) 12).map (interestAt a d r)) := by
  rw [yearInterest, accInterest_block a d r k 11 (le_refl _), List.range'_concat (12 * k) 11,
    List.map_append, List.foldl_append]
  simp

theorem getElem?_map_range {β : Type} (f : Nat → β) (n k : Nat) :
    ((List.range n).map f)[k]? = if k < n then some (f k) else none := by
  rw [List.getElem?_map]
  split
  · rename_i h
    rw [List.getElem?_range h]
    rfl
  · rename_i h
    rw [List.getElem?_eq_none (by simpa using h)]
    rfl

end Blocks

/-! ## Structural properties, for every carrier -/

section Structural

variable {α : Type} [Zero α] [Add α] [Mul α] [Div α] [NatCast α]

/-- C1 (amended): when `0 <= numberOfYears` and `numberOfYears * 12` fits the
32-bit `int`, `calculateYearlyData` leaves exactly `numberOfYears * 12` monthly
records (when a monthly vector was passed; a null pointer stays null),
exactly `numberOfYears` year-end balances and exactly `numberOfYears` year-end
interest values; for `numberOfYears = 0` all output vectors are empty. -/
theorem calculateYearlyData_counts (inv : InvestmentData α) (d : α) (b i : List α)
    (o : Option (List (ReportData α)))
    (h0 : 0 ≤ inv.numberOfYears) (hmax : inv.numberOfYears * 12 ≤ INT_MAX) :
    (calculateYearlyData inv d b i o).outMonthlyData.map (fun l => (l.length : Int)) =
        o.map (fun _ => inv.numberOfYears * 12) ∧
      ((calculateYearlyData inv d b i o).outYearEndBalances.length : Int) = inv.numberOfYears ∧
      ((calculateYearlyData inv d b i o).outYearEndInterest.length : Int) = inv.numberOfYears ∧
      (inv.numberOfYears = 0 →
        calculateYearlyData inv d b i o = ⟨[], [], o.map (fun _ => [])⟩) := by
  have hn := numberOfMonths_eq inv h0 hmax
  rw [calculateYearlyData_eq, hn]
  refine ⟨?_, ?_, ?_, ?_⟩
  · cases o with
    | none => rfl
    | some old =>
      simp only [Option.map_some', List.length_map, List.length_range, Option.some.injEq]
      omega
  · simp only [List.length_map, List.length_range]
    omega
  · simp only [List.length_map, List.length_range]
    omega
  · intro hz
    rw [hz]
    simp

/-- C3: in the monthly records of `calculateYearlyData` the first record opens
with the initial investment amount, and every later record opens with the
closing balance of the record before it. -/
theorem calculateYearlyData_opening_chain (inv : InvestmentData α) (d : α) (b i : List α)
    (old : List (ReportData α)) :
    (∀ e, (calculateYearlyData inv d b i (some old)).monthly[0]? = some e →
        e.openingBalance = inv.initialInvestmentAmount) ∧
      (∀ m e e', (calculateYearlyData inv d b i (some old)).monthly[m]? = some e →
        (calculateYearlyData inv d b i (some old)).monthly[m + 1]? = some e' →
        e'.openingBalance = e.closingBalance) := by
  constructor
  · intro e he
    rw [monthly_getElem?] at he
    split at he
    · rw [← Option.some.inj he]
      rfl
    · cases he
  · intro m e e' he he'
    rw [monthly_getElem?] at he he'
    split at he
    · split at he'
      · rw [← Option.some.inj he, ← Option.some.inj he']
        rfl
      · cases he'
    · cases he

/-- C4: the `k`-th year-end balance output by `calculateYearlyData` is the
closing balance of the monthly record at 0-based position `12 * k + 11` (as
lookups the two agree for every `k`), and it exists for every `k` below
`numberOfYears` when `numberOfYears * 12` fits the 32-bit `int`. -/
theorem calculateYearlyData_yearEndBalance (inv : InvestmentData α) (d : α) (b i : List α)
    (old : List (ReportData α)) (k : Nat) :
    (calculateYearlyData inv d b i (some old)).outYearEndBalances[k]? =
        ((calculateYearlyData inv d b i (some old)).monthly[12 * k + 11]?).map
          (fun e => e.closingBalance) ∧
      (0 ≤ inv.numberOfYears → inv.numberOfYears * 12 ≤ INT_MAX → (k : Int) < inv.numberOfYears →
        ((calculateYearlyData inv d b i (some old)).outYearEndBalances[k]?).isSome) := by
  have hlook : (calculateYearlyData inv d b i (some old)).outYearEndBalances[k]? =
      if k < (numberOfMonths inv).toNat / 12 then
        some (balanceAfter inv.initialInvestmentAmount d
          (monthlyInterestRate inv.annualInterestRate) (12 * k + 12))
      else none := by
    rw [calculateYearlyData_eq]
    exact getElem?_map_range _ _ _
  constructor
  · rw [hlook, monthly_getElem?]
    by_cases h : k < (numberOfMonths inv).toNat / 12
    · rw [if_pos h, if_pos (by omega)]
      rfl
    · rw [if_neg h, if_neg (by omega)]
      rfl
  · intro h0 hmax hk
    rw [hlook, numberOfMonths_eq inv h0 hmax, if_pos (by omega)]
    rfl

/-- C5: the `k`-th year-end interest output by `calculateYearlyData` is the
sum, accumulated from `0.0` in month order, of `interestEarned` over exactly
the 12 monthly records at 0-based positions `12 * k .. 12 * k + 11`; it is
present exactly when those 12 records are. -/
theorem calculateYearlyData_yearEndInterest (inv : InvestmentData α) (d : α) (b i : List α)
    (old : List (ReportData α)) (k : Nat) :
    (calculateYearlyData inv d b i (some old)).outYearEndInterest[k]? =
      if 12 * k + 12 ≤ (calculateYearlyData inv d b i (some old)).monthly.length then
        some (List.foldl (· + ·) 0
          ((List.take 12 (List.drop (12 * k)
            (calculateYearlyData inv d b i (some old)).monthly)).map
              (fun e => e.interestEarned)))
      else none := by
  have hlook : (calculateYearlyData inv d b i (some old)).outYearEndInterest[k]? =
      if k < (numberOfMonths inv).toNat / 12 then
        some (yearInterest inv.initialInvestmentAmount d
          (monthlyInterestRate inv.annualInterestRate) k)
      else none := by
    rw [calculateYearlyData_eq]
    exact getElem?_map_range _ _ _
  rw [hlook, monthly_eq, List.length_map, List.length_range]
  by_cases h : k < (numberOfMonths inv).toNat / 12
  · have h' : 12 * k + 12 ≤ (numberOfMonths inv).toNat := by omega
    rw [if_pos h, if_pos h', drop_take_map_range _ _ _ _ h', yearInterest_eq, List.map_map]
    rfl
  · rw [if_neg h, if_neg (by omega)]

end Structural

/-! ## Lookups in the outputs -/

section Lookups

variable {α : Type} [Zero α] [Add α] [Mul α] [Div α] [NatCast α]

theorem monthly_lookup (inv : InvestmentData α) (d : α) (b i : List α)
    (o : Option (List (ReportData α))) (m : Nat) (e : ReportData α)
    (he : (calculateYearlyData inv d b i o).monthly[m]? = some e) :
    e = entryAt inv.initialInvestmentAmount d (monthlyInterestRate inv.annualInterestRate) m := by
  cases o with
  | none => rw [monthly_none] at he; cases he
  | some old =>
    rw [monthly_getElem?] at he
    split at he
    · exact (Option.some.inj he).symm
    · cases he

theorem monthly_mem (inv : InvestmentData α) (d : α) (b i : List α)
    (o : Option (List (ReportData α))) (e : ReportData α)
    (he : e ∈ (calculateYearlyData inv d b i o).monthly) :
    ∃ m, e = entryAt inv.initialInvestmentAmount d (monthlyInterestRate inv.annualInterestRate) m := by
  obtain ⟨m, hm⟩ := List.getElem?_of_mem he
  exact ⟨m, monthly_lookup inv d b i o m e hm⟩

theorem yearEndBalances_mem (inv : InvestmentData α) (d : α) (b i : List α)
    (o : Option (List (ReportData α))) (v : α)
    (hv : v ∈ (calculateYearlyData inv d b i o).outYearEndBalances) :
    ∃ k, v = balanceAfter inv.initialInvestmentAmount d
      (monthlyInterestRate inv.annualInterestRate) (12 * k + 12) := by
  rw [calculateYearlyData_eq] at hv
  obtain ⟨k, _, hk⟩ := List.mem_map.mp hv
  exact ⟨k, hk.symm⟩

theorem yearEndInterest_mem (inv : InvestmentData α) (d : α) (b i : List α)
    (o : Option (List (ReportData α))) (v : α)
    (hv : v ∈ (calculateYearlyData inv d b i o).outYearEndInterest) :
    ∃ k, v = yearInterest inv.initialInvestmentAmount d
      (monthlyInterestRate inv.annualInterestRate) k := by
  rw [calculateYearlyData_eq] at hv
  obtain ⟨k, _, hk⟩ := List.mem_map.mp hv
  exact ⟨k, hk.symm⟩

end Lookups

/-! ## Exact arithmetic -/

theorem monthlyInterestRate_rat (x : ℚ) : monthlyInterestRate x = x / 100 / 12 := by
  simp [monthlyInterestRate]

theorem balanceAfter_nonneg (a d r : ℚ) (ha : 0 ≤ a) (hd : 0 ≤ d) (hr : 0 ≤ r) (n : Nat) :
    0 ≤ balanceAfter a d r n := by
  induction n with
  | zero => exact ha
  | succ n ih =>
    rw [balanceAfter_succ]
    positivity

theorem interestAt_nonneg (a d r : ℚ) (ha : 0 ≤ a) (hd : 0 ≤ d) (hr : 0 ≤ r) (n : Nat) :
    0 ≤ interestAt a d r n := by
  have := balanceAfter_nonneg a d r ha hd hr n
  unfold interestAt
  positivity

theorem balanceAfter_le_succ (a d r : ℚ) (ha : 0 ≤ a) (hd : 0 ≤ d) (hr : 0 ≤ r) (n : Nat) :
    balanceAfter a d r n ≤ balanceAfter a d r (n + 1) := by
  have h := balanceAfter_nonneg a d r ha hd hr n
  rw [balanceAfter_succ]
  nlinarith [mul_nonneg (add_nonneg h hd) hr]

theorem accInterest_nonneg (a d r : ℚ) (ha : 0 ≤ a) (hd : 0 ≤ d) (hr : 0 ≤ r) (n : Nat) :
    0 ≤ accInterest a d r n := by
  induction n with
  | zero => exact le_refl _
  | succ n ih =>
    rw [accInterest_succ]
    split
    · exact le_refl _
    · exact add_nonneg ih (interestAt_nonneg a d r ha hd hr n)

theorem yearInterest_nonneg (a d r : ℚ) (ha : 0 ≤ a) (hd : 0 ≤ d) (hr : 0 ≤ r) (k : Nat) :
    0 ≤ yearInterest a d r k :=
  add_nonneg (accInterest_nonneg a d r ha hd hr _) (interestAt_nonneg a d r ha hd hr _)

theorem balanceAfter_zero_rate (a d : ℚ) (n : Nat) : balanceAfter a d 0 n = a + n * d := by
  induction n with
  | zero => simp [balanceAfter]
  | succ n ih =>
    rw [balanceAfter_succ, ih]
    push_cast
    ring

theorem interestAt_zero_rate (a d : ℚ) (n : Nat) : interestAt a d 0 n = 0 := by
  simp [interestAt]

theorem accInterest_zero_rate (a d : ℚ) (n : Nat) : accInterest a d 0 n = 0 := by
  induction n with
  | zero => rfl
  | succ n ih =>
    rw [accInterest_succ, ih, interestAt_zero_rate]
    simp

theorem yearInterest_zero_rate (a d : ℚ) (k : Nat) : yearInterest a d 0 k = 0 := by
  simp [yearInterest, accInterest_zero_rate, interestAt_zero_rate]

/-- C2: every monthly record produced by `calculateYearlyData` carries the
deposit passed to the call, `total = openingBalance + depositedAmount`,
`interestEarned = total * monthlyRate` and `closingBalance = total +
interestEarned`, with `monthlyRate = (annualInterestRate / 100) / 12`; hence
`closingBalance = (openingBalance + depositedAmount) * (1 + monthlyRate)`. -/
theorem calculateYearlyData_entry_formula (inv : InvestmentData ℚ) (d : ℚ) (b i : List ℚ)
    (o : Option (List (ReportData ℚ))) (e : ReportData ℚ)
    (he : e ∈ (calculateYearlyData inv d b i o).monthly) :
    e.depositedAmount = d ∧
      e.total = e.openingBalance + e.depositedAmount ∧
      e.interestEarned = e.total * (inv.annualInterestRate / 100 / 12) ∧
      e.closingBalance = e.total + e.interestEarned ∧
      e.closingBalance =
        (e.openingBalance + e.depositedAmount) * (1 + inv.annualInterestRate / 100 / 12) := by
  obtain ⟨m, rfl⟩ := monthly_mem inv d b i o e he
  simp only [entryAt, interestAt, balanceAfter_succ, monthlyInterestRate_rat, true_and]
  ring

theorem balanceAfter_zero_deposit (a r : ℚ) (n : Nat) :
    balanceAfter a 0 r n = a * (1 + r) ^ n := by
  induction n with
  | zero => simp [balanceAfter]
  | succ n ih =>
    rw [balanceAfter_succ, ih]
    ring

/-- Inside a year block the accumulated interest is the growth of the balance
over the block so far, less the deposits made. -/
theorem accInterest_eq_growth (a d r : ℚ) (k m : Nat) (hm : m ≤ 11) :
    accInterest a d r (12 * k + m) =
      balanceAfter a d r (12 * k + m) - balanceAfter a d r (12 * k) - m * d := by
  induction m with
  | zero => simpa using accInterest_block_start a d r k
  | succ m ih =>
    have hb := balanceAfter_succ a d r (12 * k + m)
    have e : 12 * k + (m + 1) = (12 * k + m) + 1 := by omega
    rw [e, accInterest_succ, if_neg (by omega), ih (by omega), interestAt, hb]
    push_cast
    ring

theorem yearInterest_eq_growth (a d r : ℚ) (k : Nat) :
    yearInterest a d r k =
      balanceAfter a d r (12 * k + 12) - balanceAfter a d r (12 * k) - 12 * d := by
  have hb := balanceAfter_succ a d r (12 * k + 11)
  rw [yearInterest, accInterest_eq_growth a d r k 11 (le_refl _), interestAt, hb]
  push_cast
  ring

/-! ## Text output -/

theorem roundHalfEven_eq (x : ℚ) (z : Int) (h1 : (z : ℚ) - 1 / 2 < x) (h2 : x < z + 1 / 2) :
    roundHalfEven x = z := by
  unfold roundHalfEven
  by_cases hz : (z : ℚ) ≤ x
  · have hf : ⌊x⌋ = z := by
      rw [Int.floor_eq_iff]
      constructor
      · exact hz
      · linarith
    simp only [hf]
    rw [if_pos (by linarith)]
  · have hf : ⌊x⌋ = z - 1 := by
      rw [Int.floor_eq_iff]
      push_cast
      constructor
      · linarith
      · linarith
    simp only [hf]
    push_cast
    rw [if_neg (by linarith), if_pos (by linarith)]
    omega

/-- The text of a non-negative amount that lies within half a cent of `c` cents. -/
theorem fixedPrecision2_of_cents (x : ℚ) (c : Nat) (hx : 0 ≤ x)
    (h1 : (c : ℚ) - 1 / 2 < x * 100) (h2 : x * 100 < c + 1 / 2) :
    fixedPrecision2 x =
      Nat.repr (c / 100) ++ "." ++ Nat.repr (c % 100 / 10) ++ Nat.repr (c % 10) := by
  have hr : roundHalfEven (|x| * 100) = (c : Int) := by
    rw [abs_of_nonneg hx]
    apply roundHalfEven_eq
    · exact_mod_cast h1
    · exact_mod_cast h2
  unfold fixedPrecision2
  simp only [hr, Int.toNat_ofNat]
  rw [if_neg (not_lt.mpr hx)]
  rfl

theorem fixedPrecision2_example_1000 : fixedPrecision2 1000 = "1000.00" := by
  rw [fixedPrecision2_of_cents 1000 100000 (by norm_num) (by norm_num) (by norm_num)]
  decide

theorem fixedPrecision2_example_zero : fixedPrecision2 0 = "0.00" := by
  rw [fixedPrecision2_of_cents 0 0 (by norm_num) (by norm_num) (by norm_num)]
  decide

theorem fixedPrecision2_example_interest : fixedPrecision2 (15 / 4) = "3.75" := by
  rw [fixedPrecision2_of_cents (15 / 4) 375 (by norm_num) (by norm_num) (by norm_num)]
  decide

theorem fixedPrecision2_example_closing : fixedPrecision2 (4015 / 4) = "1003.75" := by
  rw [fixedPrecision2_of_cents (4015 / 4) 100375 (by norm_num) (by norm_num) (by norm_num)]
  decide

theorem fixedPrecision2_example_yearEndBalance :
    fixedPrecision2 (1000 * (1 + 9 / 2 / 100 / 12) ^ 12) = "1045.94" := by
  rw [fixedPrecision2_of_cents _ 104594 (by norm_num) (by norm_num) (by norm_num)]
  decide

theorem fixedPrecision2_example_yearEndInterest :
    fixedPrecision2 (1000 * (1 + 9 / 2 / 100 / 12) ^ 12 - 1000) = "45.94" := by
  rw [fixedPrecision2_of_cents _ 4594 (by norm_num) (by norm_num) (by norm_num)]
  decide

theorem natRepr_digit_length (d : Nat) (h : d < 10) : (Nat.repr d).length = 1 := by
  interval_cases d <;> decide

/-- Every finite amount is written with a point followed by exactly two decimal
digits. -/
theorem fixedPrecision2_two_decimals (x : ℚ) :
    ∃ (front : String) (d1 d0 : Nat), d1 < 10 ∧ d0 < 10 ∧
      fixedPrecision2 x = front ++ "." ++ Nat.repr d1 ++ Nat.repr d0 ∧
      (Nat.repr d1 ++ Nat.repr d0).length = 2 := by
  refine ⟨(if x < 0 then "-" else "") ++ Nat.repr ((roundHalfEven (|x| * 100)).toNat / 100),
    (roundHalfEven (|x| * 100)).toNat % 100 / 10, (roundHalfEven (|x| * 100)).toNat % 10,
    by omega, by omega, rfl, ?_⟩
  rw [String.length_append, natRepr_digit_length _ (by omega), natRepr_digit_length _ (by omega)]

/-! ## Currency symbols in the table rows -/

theorem dollarCount_append (s t : String) :
    dollarCount (s ++ t) = dollarCount s + dollarCount t := by
  simp [dollarCount, List.count_append]

theorem digitChar_ne_dollar (n : Nat) (h : n < 10) : Nat.digitChar n ≠ '$' := by
  interval_cases n <;> decide

theorem toDigitsCore_count (fuel n : Nat) (ds : List Char) :
    (Nat.toDigitsCore 10 fuel n ds).count '$' = ds.count '$' := by
  induction fuel generalizing n ds with
  | zero => rfl
  | succ fuel ih =>
    have hd : Nat.digitChar (n % 10) ≠ '$' := digitChar_ne_dollar _ (Nat.mod_lt _ (by decide))
    have hc : (Nat.digitChar (n % 10) :: ds).count '$' = ds.count '$' := by
      rw [List.count_cons_of_ne hd.symm]
    simp only [Nat.toDigitsCore]
    split
    · exact hc
    · rw [ih, hc]

theorem dollarCount_natRepr (n : Nat) : dollarCount (Nat.repr n) = 0 := by
  simp [dollarCount, Nat.repr, Nat.toDigits, List.asString, toDigitsCore_count]

theorem dollarCount_intToString (z : Int) : dollarCount (toString z) = 0 := by
  cases z with
  | ofNat m => exact dollarCount_natRepr m
  | negSucc m =>
    show dollarCount ("-" ++ Nat.repr (m + 1)) = 0
    rw [dollarCount_append, dollarCount_natRepr]
    decide

theorem dollarCount_fixedPrecision2 (x : ℚ) : dollarCount (fixedPrecision2 x) = 0 := by
  unfold fixedPrecision2
  simp only [dollarCount_append, dollarCount_natRepr]
  split <;> decide

theorem dollarCount_spaces (n : Nat) : dollarCount (String.mk (List.replicate n ' ')) = 0 := by
  simp [dollarCount, List.count_replicate]

theorem dollarCount_setwRight (w : Nat) (s : String) :
    dollarCount (setwRight w s) = dollarCount s := by
  simp [setwRight, dollarCount_append, dollarCount_spaces]

theorem dollarCount_setwLeft (w : Nat) (s : String) :
    dollarCount (setwLeft w s) = dollarCount s := by
  simp [setwLeft, dollarCount_append, dollarCount_spaces]

/-- A value written by `printDollarAmount` carries exactly one `$`, directly
in front of the amount. -/
theorem dollarCount_printDollarAmount (x : ℚ) (w : Nat) :
    dollarCount (printDollarAmount x w) = 1 := by
  rw [printDollarAmount, dollarCount_append, dollarCount_setwRight, dollarCount_fixedPrecision2]
  decide

/-- Both currency values of a year-end row carry their `$`. -/
theorem dollarCount_yearEndReportRow (i : Nat) (bs is : List ℚ) :
    dollarCount (yearEndReportRow i bs is) = 2 := by
  simp only [yearEndReportRow, dollarCount_append, dollarCount_setwLeft, dollarCount_natRepr,
    dollarCount_printDollarAmount]
  decide

theorem dollarCount_foldl_append (l : List String) (acc : String) :
    dollarCount (l.foldl (· ++ ·) acc) = dollarCount acc + (l.map dollarCount).sum := by
  induction l generalizing acc with
  | nil => simp
  | cons s l ih =>
    rw [List.foldl_cons, ih, dollarCount_append, List.map_cons, List.sum_cons]
    omega

theorem dollarCount_join (l : List String) :
    dollarCount (String.join l) = (l.map dollarCount).sum := by
  rw [String.join, dollarCount_foldl_append]
  simp [dollarCount]

theorem dollarCount_stringOf (n : Nat) (c : Char) (hc : c ≠ '$') :
    dollarCount (stringOf n c) = 0 := by
  simp [dollarCount, stringOf, List.count_replicate, hc]

/-- A monthly row holds three `$`: opening balance, deposit and interest. -/
theorem dollarCount_monthlyReportRow (data : ReportData ℚ) :
    dollarCount (monthlyReportRow data) = 3 := by
  simp only [monthlyReportRow, dollarCount_append, dollarCount_setwLeft,
    dollarCount_intToString, dollarCount_printDollarAmount, dollarCount_setwRight,
    dollarCount_fixedPrecision2]
  decide

/-- The monthly table holds three `$` per data row and none elsewhere. -/
theorem dollarCount_displayMonthlyReportTable (monthlyData : List (ReportData ℚ)) :
    dollarCount (displayMonthlyReportTable monthlyData) = 3 * monthlyData.length := by
  simp only [displayMonthlyReportTable, dollarCount_append, dollarCount_join,
    dollarCount_setwRight, dollarCount_setwLeft, List.map_map,
    dollarCount_stringOf 120 '=' (by decide), dollarCount_stringOf 120 '-' (by decide)]
  have hrows : List.map (dollarCount ∘ monthlyReportRow) monthlyData =
      List.replicate monthlyData.length 3 := by
    rw [List.eq_replicate_iff]
    simp [dollarCount_monthlyReportRow]
  rw [hrows, List.sum_replicate]
  have h1 : dollarCount endl = 0 := by decide
  have h2 : dollarCount
      "                                              *** DETAILED MONTHLY BREAKDOWN ***                                     " = 0 := by
    decide
  have h3 : dollarCount "Month" = 0 := by decide
  have h4 : dollarCount "Opening Amount" = 0 := by decide
  have h5 : dollarCount "Deposited Amount" = 0 := by decide
  have h6 : dollarCount "Interest" = 0 := by decide
  have h7 : dollarCount "Closing Balance" = 0 := by decide
  have h8 : dollarCount "\nPress enter key to continue..." = 0 := by decide
  simp only [h1, h2, h3, h4, h5, h6, h7, h8, smul_eq_mul]
  omega

/-- A year-end table holds two `$` per data row; the others can only come from
the title. -/
theorem dollarCount_displayYearEndReport (reportTitle : String) (bs is : List ℚ) :
    dollarCount (displayYearEndReport reportTitle bs is) =
      dollarCount reportTitle + 2 * bs.length := by
  simp only [displayYearEndReport, dollarCount_append, dollarCount_join,
    dollarCount_setwRight, dollarCount_setwLeft, List.map_map,
    dollarCount_stringOf 120 '=' (by decide), dollarCount_stringOf 120 '-' (by decide)]
  have hrows : List.map (dollarCount ∘ fun i => yearEndReportRow i bs is) (List.range bs.length) =
      List.replicate bs.length 2 := by
    rw [List.eq_replicate_iff]
    simp [dollarCount_yearEndReportRow]
  rw [hrows, List.sum_replicate]
  have h1 : dollarCount endl = 0 := by decide
  have h2 : dollarCount "*** " = 0 := by decide
  have h3 : dollarCount "  ***" = 0 := by decide
  have h4 : dollarCount "Year" = 0 := by decide
  have h5 : dollarCount "Year End Balance" = 0 := by decide
  have h6 : dollarCount "Year End Earned Interest" = 0 := by decide
  simp only [h1, h2, h3, h4, h5, h6, smul_eq_mul]
  omega

/-- C10 (the code departs from it): a monthly row holds four currency values
but only three `$`; the closing balance, written by
`cout << setw(CLOSE_W) << data.closingBalance`, has two decimals and no `$`.
The whole monthly table therefore holds `3 * rows` currency symbols. -/
theorem monthlyReportRow_dollarCount :
    (∀ data : ReportData ℚ,
        dollarCount (setwRight 25 (fixedPrecision2 data.closingBalance)) = 0 ∧
          dollarCount (monthlyReportRow data) = 3) ∧
      (∀ monthlyData : List (ReportData ℚ),
        dollarCount (displayMonthlyReportTable monthlyData) = 3 * monthlyData.length) ∧
      monthlyReportRow ⟨1, 1000, 0, 1000, 15 / 4, 4015 / 4⟩ =
        "1                               $1000.00                        $0.00                   $3.75                  1003.75\n" := by
  refine ⟨fun data => ⟨?_, dollarCount_monthlyReportRow data⟩,
    dollarCount_displayMonthlyReportTable, ?_⟩
  · rw [dollarCount_setwRight, dollarCount_fixedPrecision2]
  · simp only [monthlyReportRow, printDollarAmount, fixedPrecision2_example_1000,
      fixedPrecision2_example_zero, fixedPrecision2_example_interest,
      fixedPrecision2_example_closing]
    decide

/-! ## Concrete runs -/

/-- C1, counterexample: for `numberOfYears = 178956971` the product
`numberOfYears * 12 = 2147483652` does not fit the 32-bit `int`; the loop bound
is negative, the loop body never runs and all three outputs are empty. -/
theorem calculateYearlyData_counts_overflow :
    (0 : Int) ≤ 178956971 ∧
      calculateYearlyData (⟨1000, 100, 5, 178956971⟩ : InvestmentData ℚ) 100 [] [] (some []) =
        ⟨[], [], some []⟩ ∧
      ¬ ((((calculateYearlyData (⟨1000, 100, 5, 178956971⟩ : InvestmentData ℚ) 100 [] []
            (some [])).monthly.length : Int) = 178956971 * 12) ∧
        (((calculateYearlyData (⟨1000, 100, 5, 178956971⟩ : InvestmentData ℚ) 100 [] []
            (some [])).outYearEndBalances.length : Int) = 178956971) ∧
        (((calculateYearlyData (⟨1000, 100, 5, 178956971⟩ : InvestmentData ℚ) 100 [] []
            (some [])).outYearEndInterest.length : Int) = 178956971)) := by
  have h : calculateYearlyData (⟨1000, 100, 5, 178956971⟩ : InvestmentData ℚ) 100 [] [] (some []) =
      ⟨[], [], some []⟩ := by
    rw [calculateYearlyData_eq]
    have hn : (numberOfMonths (⟨1000, 100, 5, 178956971⟩ : InvestmentData ℚ)).toNat = 0 := by
      decide
    rw [hn]
    rfl
  refine ⟨by decide, h, ?_⟩
  rw [h]
  simp [Outputs.monthly]

/-- Witness for `calculateYearlyData_counts`: five years give 60 monthly
records and 5 year-end values. -/
theorem calculateYearlyData_counts_witness :
    (0 : Int) ≤ 5 ∧ (5 : Int) * 12 ≤ INT_MAX ∧
      (calculateYearlyData (⟨1000, 100, 5, 5⟩ : InvestmentData ℚ) 100 [] []
          (some [])).outMonthlyData.map (fun l => (l.length : Int)) = some (5 * 12) ∧
      ((calculateYearlyData (⟨1000, 100, 5, 5⟩ : InvestmentData ℚ) 100 [] []
          (some [])).outYearEndBalances.length : Int) = 5 ∧
      ((calculateYearlyData (⟨1000, 100, 5, 5⟩ : InvestmentData ℚ) 100 [] []
          (some [])).outYearEndInterest.length : Int) = 5 :=
  have h := calculateYearlyData_counts (⟨1000, 100, 5, 5⟩ : InvestmentData ℚ) 100 [] []
    (some []) (by decide) (by decide)
  ⟨by decide, by decide, h.1, h.2.1, h.2.2.1⟩

theorem entryAt_first_example :
    entryAt (1000 : ℚ) 100 (monthlyInterestRate (9 / 2)) 0 =
      ⟨1, 1000, 100, 1100, 33 / 8, 8833 / 8⟩ := by
  simp only [entryAt, interestAt, balanceAfter, monthlyInterestRate_rat]
  norm_num

theorem monthly_first_example :
    (calculateYearlyData (⟨1000, 100, 9 / 2, 1⟩ : InvestmentData ℚ) 100 [] []
        (some [])).monthly[0]? = some ⟨1, 1000, 100, 1100, 33 / 8, 8833 / 8⟩ := by
  rw [monthly_getElem?, if_pos (by decide)]
  exact congrArg some entryAt_first_example

/-- Witness for `calculateYearlyData_entry_formula`: the first month of a run
with 1000 initial, 100 deposited monthly, 4.5 percent. -/
theorem calculateYearlyData_entry_formula_witness :
    (⟨1, 1000, 100, 1100, 33 / 8, 8833 / 8⟩ : ReportData ℚ) ∈
        (calculateYearlyData (⟨1000, 100, 9 / 2, 1⟩ : InvestmentData ℚ) 100 [] []
          (some [])).monthly ∧
      (100 : ℚ) = 100 ∧ (1100 : ℚ) = 1000 + 100 ∧ (33 / 8 : ℚ) = 1100 * (9 / 2 / 100 / 12) ∧
      (8833 / 8 : ℚ) = 1100 + 33 / 8 ∧ (8833 / 8 : ℚ) = (1000 + 100) * (1 + 9 / 2 / 100 / 12) :=
  ⟨List.getElem?_mem monthly_first_example,
    calculateYearlyData_entry_formula (⟨1000, 100, 9 / 2, 1⟩ : InvestmentData ℚ) 100 [] []
      (some []) _ (List.getElem?_mem monthly_first_example)⟩

theorem monthly_third_zero_rate_example :
    (calculateYearlyData (⟨1000, 100, 0, 1⟩ : InvestmentData ℚ) 100 [] []
        (some [])).monthly[3 - 1]? = some ⟨3, 1200, 100, 1300, 0, 1300⟩ := by
  rw [monthly_getElem?, if_pos (by decide)]
  simp only [entryAt, interestAt, balanceAfter, monthlyInterestRate_rat]
  norm_num

theorem monthly_negative_example_first :
    (calculateYearlyData (⟨-1000, 0, 12, 1⟩ : InvestmentData ℚ) 0 [] []
        (some [])).monthly[0]? = some ⟨1, -1000, 0, -1000, -10, -1010⟩ := by
  rw [monthly_getElem?, if_pos (by decide)]
  simp only [entryAt, interestAt, balanceAfter, monthlyInterestRate_rat]
  norm_num

theorem monthly_negative_example_second :
    (calculateYearlyData (⟨-1000, 0, 12, 1⟩ : InvestmentData ℚ) 0 [] []
        (some [])).monthly[1]? = some ⟨2, -1010, 0, -1010, -(101 / 10), -(10201 / 10)⟩ := by
  rw [monthly_getElem?, if_pos (by decide)]
  simp only [entryAt, interestAt, balanceAfter, monthlyInterestRate_rat]
  norm_num

/-- Monotone closing balances need a non-negative initial amount: given to the
method directly (the input loop rejects it), an initial amount of -1000 with
annual rate 12 and deposit 0 closes month 1 at -1010 and month 2 at -1020.10,
which is lower. -/
theorem closing_decreases_from_negative_initial :
    (0 : ℚ) ≤ 12 ∧ (0 : ℚ) ≤ 0 ∧
      (calculateYearlyData (⟨-1000, 0, 12, 1⟩ : InvestmentData ℚ) 0 [] []
        (some [])).monthly[0]? = some ⟨1, -1000, 0, -1000, -10, -1010⟩ ∧
      (calculateYearlyData (⟨-1000, 0, 12, 1⟩ : InvestmentData ℚ) 0 [] []
        (some [])).monthly[1]? = some ⟨2, -1010, 0, -1010, -(101 / 10), -(10201 / 10)⟩ ∧
      ¬ ((-1010 : ℚ) ≤ -(10201 / 10)) :=
  ⟨by norm_num, le_refl _, monthly_negative_example_first, monthly_negative_example_second,
    by norm_num⟩

theorem monthly_second_example :
    (calculateYearlyData (⟨1000, 100, 9 / 2, 1⟩ : InvestmentData ℚ) 100 [] []
        (some [])).monthly[0 + 1]? =
      some ⟨2, 8833 / 8, 100, 9633 / 8, 28899 / 6400, 7735299 / 6400⟩ := by
  rw [monthly_getElem?, if_pos (by decide)]
  simp only [entryAt, interestAt, balanceAfter, monthlyInterestRate_rat]
  norm_num

theorem scenario_monthly_first :
    (calculateYearlyData (⟨1000, 0, 9 / 2, 5⟩ : InvestmentData ℚ) 0 [] []
        (some [])).monthly[0]? = some ⟨1, 1000, 0, 1000, 15 / 4, 4015 / 4⟩ := by
  rw [monthly_getElem?, if_pos (by decide)]
  simp only [entryAt, interestAt, balanceAfter, monthlyInterestRate_rat]
  norm_num

theorem scenario_yearEndBalance (o : Option (List (ReportData ℚ))) :
    (calculateYearlyData (⟨1000, 0, 9 / 2, 5⟩ : InvestmentData ℚ) 0 [] []
        o).outYearEndBalances[0]? = some (1000 * (1 + 9 / 2 / 100 / 12) ^ 12) := by
  rw [calculateYearlyData_eq, getElem?_map_range, if_pos (by decide), monthlyInterestRate_rat,
    balanceAfter_zero_deposit]

theorem scenario_yearEndInterest (o : Option (List (ReportData ℚ))) :
    (calculateYearlyData (⟨1000, 0, 9 / 2, 5⟩ : InvestmentData ℚ) 0 [] []
        o).outYearEndInterest[0]? = some (1000 * (1 + 9 / 2 / 100 / 12) ^ 12 - 1000) := by
  rw [calculateYearlyData_eq, getElem?_map_range, if_pos (by decide), monthlyInterestRate_rat,
    yearInterest_eq_growth, balanceAfter_zero_deposit, balanceAfter_zero_deposit]
  norm_num

/-- C9, counterexample: in the scenario the first year-end balance is below
1045.945 and the first year-end interest below 45.945, and they are written
as `1045.94` and `45.94`; they are not `1045.99` and `45.99` to two decimals. -/
theorem scenario_not_1045_99 :
    ¬ ((calculateYearlyData (⟨1000, 0, 9 / 2, 5⟩ : InvestmentData ℚ) 0 [] []
          (some [])).monthly[0]? = some ⟨1, 1000, 0, 1000, 15 / 4, 4015 / 4⟩ ∧
        ∃ vb vi : ℚ,
          (calculateYearlyData (⟨1000, 0, 9 / 2, 5⟩ : InvestmentData ℚ) 0 [] []
            (some [])).outYearEndBalances[0]? = some vb ∧
          (calculateYearlyData (⟨1000, 0, 9 / 2, 5⟩ : InvestmentData ℚ) 0 [] []
            (some [])).outYearEndInterest[0]? = some vi ∧
          (fixedPrecision2 vb = "1045.99" ∨ |vb - 1045.99| ≤ 1 / 200) ∧
          (fixedPrecision2 vi = "45.99" ∨ |vi - 45.99| ≤ 1 / 200)) := by
  rintro ⟨-, vb, vi, hb, -, h, -⟩
  rw [scenario_yearEndBalance] at hb
  rw [← Option.some.inj hb] at h
  rcases h with h | h
  · rw [fixedPrecision2_example_yearEndBalance] at h
    exact absurd h (by decide)
  · rw [abs_le] at h
    norm_num at h

/-- C9 (amended): in the scenario month 1 opens at 1000, earns 3.75 and closes
at 1003.75; the first year-end balance is `1000 * 1.00375 ^ 12`, within half a
cent of 1045.94 and written `1045.94`; the first year-end interest is that
balance less 1000, within half a cent of 45.94 and written `45.94`. -/
theorem scenario_values :
    (calculateYearlyData (⟨1000, 0, 9 / 2, 5⟩ : InvestmentData ℚ) 0 [] []
        (some [])).monthly[0]? = some ⟨1, 1000, 0, 1000, 15 / 4, 4015 / 4⟩ ∧
      (calculateYearlyData (⟨1000, 0, 9 / 2, 5⟩ : InvestmentData ℚ) 0 [] []
        (some [])).outYearEndBalances[0]? = some (1000 * (1 + 9 / 2 / 100 / 12) ^ 12) ∧
      (calculateYearlyData (⟨1000, 0, 9 / 2, 5⟩ : InvestmentData ℚ) 0 [] []
        (some [])).outYearEndInterest[0]? = some (1000 * (1 + 9 / 2 / 100 / 12) ^ 12 - 1000) ∧
      |(1000 * (1 + 9 / 2 / 100 / 12) ^ 12 : ℚ) - 1045.94| < 1 / 200 ∧
      |(1000 * (1 + 9 / 2 / 100 / 12) ^ 12 - 1000 : ℚ) - 45.94| < 1 / 200 ∧
      fixedPrecision2 (1000 * (1 + 9 / 2 / 100 / 12) ^ 12) = "1045.94" ∧
      fixedPrecision2 (1000 * (1 + 9 / 2 / 100 / 12) ^ 12 - 1000) = "45.94" ∧
      yearEndReportRow 0
        (calculateYearlyData (⟨1000, 0, 9 / 2, 5⟩ : InvestmentData ℚ) 0 [] []
          (some [])).outYearEndBalances
        (calculateYearlyData (⟨1000, 0, 9 / 2, 5⟩ : InvestmentData ℚ) 0 [] []
          (some [])).outYearEndInterest =
        "0                                                 $1045.94                                                 $45.94\n" := by
  refine ⟨scenario_monthly_first, scenario_yearEndBalance _, scenario_yearEndInterest _, ?_, ?_,
    fixedPrecision2_example_yearEndBalance, fixedPrecision2_example_yearEndInterest, ?_⟩
  · rw [abs_lt]
    norm_num
  · rw [abs_lt]
    norm_num
  · simp only [yearEndReportRow, printDollarAmount, List.getD_eq_getElem?_getD,
      scenario_yearEndBalance, scenario_yearEndInterest, Option.getD_some,
      fixedPrecision2_example_yearEndBalance, fixedPrecision2_example_yearEndInterest]
    decide

/-- After `displayAllYearEndReports` the member `m_monthlyReport` holds the
monthly records of the run with the user's deposit. -/
theorem displayAllYearEndReports_monthlyReport (app : CalculatorApp) :
    (displayAllYearEndReports app).2.m_monthlyReport =
      (calculateYearlyData app.m_investmentData app.m_investmentData.monthlyDepositAmount [] []
        (some [])).monthly := by
  simp only [displayAllYearEndReports, Outputs.monthly, calculateYearlyData_eq, Option.map_some',
    Option.getD_some]

/-! ## Overflow of `double` -/

theorem int_log_two_eq (q : ℚ) (e : Int) (hq : 0 < q) (h1 : (2 : ℚ) ^ e ≤ q)
    (h2 : q < (2 : ℚ) ^ (e + 1)) : Int.log 2 q = e := by
  have hle : e ≤ Int.log 2 q := (Int.zpow_le_iff_le_log (by norm_num) hq).mp (by exact_mod_cast h1)
  have hlt : Int.log 2 q < e + 1 :=
    (Int.lt_zpow_iff_log_lt (by norm_num) hq).mp (by exact_mod_cast h2)
  omega

theorem le_roundHalfEven (x : ℚ) (n : Int) (h : (n : ℚ) ≤ x) : n ≤ roundHalfEven x := by
  have hf : n ≤ ⌊x⌋ := Int.le_floor.mpr h
  unfold roundHalfEven
  simp only
  split
  · exact hf
  · split
    · omega
    · split <;> omega

/-- An exact result of `2 ^ 1024` or more rounds to positive infinity. -/
theorem roundBinary64_overflow (q : ℚ) (h : (2 : ℚ) ^ (1024 : Int) ≤ q) :
    roundBinary64 q = Double.posInf := by
  have hpos : (0 : ℚ) < q := lt_of_lt_of_le (by positivity) h
  have habs : |q| = q := abs_of_pos hpos
  have hlog : (1024 : Int) ≤ Int.log 2 q :=
    (Int.zpow_le_iff_le_log (by norm_num) hpos).mp (by exact_mod_cast h)
  have hself : (2 : ℚ) ^ Int.log 2 q ≤ q := by
    exact_mod_cast Int.zpow_log_le_self (b := 2) (by norm_num) hpos
  have hmax : max (Int.log 2 q) (-1022) = Int.log 2 q := max_eq_left (by omega)
  have hulp : (0 : ℚ) < 2 ^ (Int.log 2 q - 52) := by positivity
  have hquot : (((2 : Int) ^ (52 : ℕ) : Int) : ℚ) ≤ q / 2 ^ (Int.log 2 q - 52) := by
    rw [le_div_iff₀ hulp]
    push_cast
    calc (2 : ℚ) ^ (52 : ℕ) * 2 ^ (Int.log 2 q - 52) = 2 ^ Int.log 2 q := by
          rw [← zpow_natCast, ← zpow_add₀ (by norm_num)]
          congr 1
          omega
      _ ≤ q := hself
  have hm := le_roundHalfEven _ _ hquot
  have hr : (2 : ℚ) ^ (1024 : Int) ≤
      |(roundHalfEven (q / 2 ^ (Int.log 2 q - 52)) : ℚ) * 2 ^ (Int.log 2 q - 52)| := by
    have hmq : ((2 : ℚ) ^ (52 : ℕ)) ≤ (roundHalfEven (q / 2 ^ (Int.log 2 q - 52)) : ℚ) := by
      exact_mod_cast hm
    rw [abs_of_nonneg (by positivity)]
    calc (2 : ℚ) ^ (1024 : Int) ≤ 2 ^ Int.log 2 q := by
          exact zpow_le_zpow_right₀ (by norm_num) hlog
      _ = (2 : ℚ) ^ (52 : ℕ) * 2 ^ (Int.log 2 q - 52) := by
          rw [← zpow_natCast, ← zpow_add₀ (by norm_num)]
          congr 1
          omega
      _ ≤ _ := by gcongr
  unfold roundBinary64
  simp only [habs, hmax]
  rw [if_neg (ne_of_gt hpos), if_pos hr, if_neg (not_lt.mpr hpos.le)]

/-- A positive exact result in the binade of `2 ^ e` that lies within half a
unit in the last place of `m` units rounds to `m` units. -/
theorem roundBinary64_of_binade (q : ℚ) (e m : Int) (hq : 0 < q) (he : -1022 ≤ e)
    (h1 : (2 : ℚ) ^ e ≤ q) (h2 : q < (2 : ℚ) ^ (e + 1))
    (hm1 : (m : ℚ) - 1 / 2 < q / 2 ^ (e - 52)) (hm2 : q / 2 ^ (e - 52) < m + 1 / 2)
    (hfin : |(m : ℚ) * 2 ^ (e - 52)| < 2 ^ (1024 : Int)) :
    roundBinary64 q = Double.finite (m * 2 ^ (e - 52)) := by
  have habs : |q| = q := abs_of_pos hq
  have hlog : Int.log 2 q = e := int_log_two_eq q e hq h1 h2
  have hmax : max e (-1022) = e := max_eq_left he
  have hround : roundHalfEven (q / 2 ^ (e - 52)) = m := roundHalfEven_eq _ _ hm1 hm2
  unfold roundBinary64
  simp only [habs, hlog, hmax, hround]
  rw [if_neg (ne_of_gt hq), if_neg (not_le.mpr hfin)]

theorem oneE308_eq : oneE308 = Double.finite (5010420900022432 * 2 ^ (971 : Int)) := by
  have h := roundBinary64_of_binade (10 ^ 308) 1023 5010420900022432 (by positivity)
    (by norm_num) (by norm_num) (by norm_num) (by norm_num) (by norm_num) (by norm_num)
  rw [oneE308, h]
  norm_num

theorem natCast_hundred : ((100 : ℕ) : Double) = Double.finite 100 := by
  have h := roundBinary64_of_binade 100 6 7036874417766400 (by norm_num)
    (by norm_num) (by norm_num) (by norm_num) (by norm_num) (by norm_num) (by norm_num)
  show roundBinary64 ((100 : ℕ) : ℚ) = Double.finite 100
  rw [Nat.cast_ofNat, h]
  norm_num

theorem natCast_twelve : ((12 : ℕ) : Double) = Double.finite 12 := by
  have h := roundBinary64_of_binade 12 3 6755399441055744 (by norm_num)
    (by norm_num) (by norm_num) (by norm_num) (by norm_num) (by norm_num) (by norm_num)
  show roundBinary64 ((12 : ℕ) : ℚ) = Double.finite 12
  rw [Nat.cast_ofNat, h]
  norm_num

/-- An annual rate of `0.0` gives the monthly rate `0.0`. -/
theorem monthlyInterestRate_double_zero : monthlyInterestRate (0 : Double) = Double.finite 0 := by
  have h1 : (0 : Double) / Double.finite 100 = Double.finite 0 := by
    show Double.div (Double.finite 0) (Double.finite 100) = Double.finite 0
    simp [Double.div, roundBinary64]
  have h2 : Double.finite 0 / Double.finite 12 = Double.finite 0 := by
    show Double.div (Double.finite 0) (Double.finite 12) = Double.finite 0
    simp [Double.div, roundBinary64]
  rw [monthlyInterestRate, natCast_hundred, natCast_twelve, h1, h2]

/-- Twice the `double` of `1e308` overflows. -/
theorem oneE308_add_self : oneE308 + oneE308 = Double.posInf := by
  rw [oneE308_eq]
  show roundBinary64 (5010420900022432 * 2 ^ (971 : Int) + 5010420900022432 * 2 ^ (971 : Int)) =
    Double.posInf
  apply roundBinary64_overflow
  norm_num

theorem posInf_mul_zero : Double.posInf * Double.finite 0 = Double.nan := by
  show Double.infTimes false 0 = Double.nan
  simp [Double.infTimes]

theorem oneE308_nonneg : (0 : Double) ≤ oneE308 := by
  rw [oneE308_eq]
  show (0 : ℚ) ≤ 5010420900022432 * 2 ^ (971 : Int)
  positivity

theorem double_zero_le_zero : (0 : Double) ≤ 0 := by
  show (0 : ℚ) ≤ 0
  exact le_refl _

/-- The comparison of a `double` with a value that is not a number is false. -/
theorem double_not_le_nan (x : Double) : ¬ x ≤ Double.nan := by
  cases x <;> exact fun h => h

theorem double_nan_add (x : Double) : Double.nan + x = Double.nan := by
  cases x <;> rfl

theorem double_add_nan (x : Double) : x + Double.nan = Double.nan := by
  cases x <;> rfl

theorem double_nan_mul (x : Double) : Double.nan * x = Double.nan := by
  cases x <;> rfl

theorem entryAt_zero {α : Type} [Zero α] [Add α] [Mul α] [Div α] [NatCast α] (a d r : α) :
    entryAt a d r 0 = ⟨1, a, d, a + d, (a + d) * r, (a + d) + (a + d) * r⟩ := by
  simp [entryAt, interestAt, balanceAfter]

theorem entryAt_one {α : Type} [Zero α] [Add α] [Mul α] [Div α] [NatCast α] (a d r : α) :
    entryAt a d r 1 =
      ⟨2, (a + d) + (a + d) * r, d, ((a + d) + (a + d) * r) + d,
        (((a + d) + (a + d) * r) + d) * r,
        (((a + d) + (a + d) * r) + d) + (((a + d) + (a + d) * r) + d) * r⟩ := by
  simp [entryAt, interestAt, balanceAfter]

/-- The lookup `monthly_getElem?` with the fields of the input spelled out. -/
theorem monthly_getElem?_fields {α : Type} [Zero α] [Add α] [Mul α] [Div α] [NatCast α]
    (a dep rate : α) (years : Int) (d : α) (b i : List α) (old : List (ReportData α)) (m : Nat) :
    (calculateYearlyData (⟨a, dep, rate, years⟩ : InvestmentData α) d b i (some old)).monthly[m]? =
      if m < (wrapInt32 (years * 12)).toNat then
        some (entryAt a d (monthlyInterestRate rate) m)
      else none :=
  monthly_getElem? _ d b i old m

/-- The run on the `double` carrier with initial `1e308`, deposit `1e308`, rate
`0`: month 1 has an infinite total and interest and closing balance that are
not numbers. -/
theorem overflow_monthly_first :
    (calculateYearlyData (⟨oneE308, oneE308, 0, 1⟩ : InvestmentData Double) oneE308 [] []
        (some [])).monthly[0]? =
      some ⟨1, oneE308, oneE308, Double.posInf, Double.nan, Double.nan⟩ := by
  rw [monthly_getElem?_fields, if_pos (by decide), entryAt_zero, monthlyInterestRate_double_zero,
    oneE308_add_self, posInf_mul_zero, double_add_nan]

/-- In the same run month 2 opens and closes with values that are not numbers. -/
theorem overflow_monthly_second :
    (calculateYearlyData (⟨oneE308, oneE308, 0, 1⟩ : InvestmentData Double) oneE308 [] []
        (some [])).monthly[1]? =
      some ⟨2, Double.nan, oneE308, Double.nan, Double.nan, Double.nan⟩ := by
  rw [monthly_getElem?_fields, if_pos (by decide), entryAt_one, monthlyInterestRate_double_zero,
    oneE308_add_self, posInf_mul_zero, double_add_nan, double_nan_add, double_nan_mul,
    double_add_nan]

end Airgead
